import Mathlib

/-!
Shallow embedding of the attendance-tracker decision core
(tp_inicial: app.py, persistencia/registrarAsistencia.py,
validarEmpleado/validarTurno.py, reconocimiento/verificador.py,
reconocimiento/embedding.py).

Modelling conventions:
* Python strings are Lean String; the str.lower, str.strip and string
  less-than operations are modelled by the structurally recursive
  pyLower, pyStrip and pyStrLt below (the repository only uses
  ASCII-relevant casing plus accented literals that are already lower
  case).
* Times of day (datetime.time values) are seconds since midnight (Nat);
  the source only builds and compares such values.
* Floating point distances are modelled over the rationals by their
  squares: for u greater or equal 0, dist less-equal u iff distSq
  less-equal u squared, and dist less than u iff distSq less than
  u squared, because the square root is strictly monotone on
  nonnegative reals.  The accept decisions below carry an explicit
  0 less-equal threshold conjunct so that negative thresholds reject
  exactly as they do on real distances.
* float('inf') returned on lookup failure is the top element of
  WithTop Rat.
* File reads that can fail are an Except value handed to the function;
  the try/except handlers of the source become matches on that value.
* JSON records are structures; dict.get with a constant default is a
  plain field when every writer of the dict sets the key.
-/

set_option maxRecDepth 10000

/-- Model of the Python str.lower method: lower-case every character
(character-wise, which agrees with Python on the strings this
repository handles). -/
def pyLower (s : String) : String :=
  String.mk (s.data.map Char.toLower)

/-- Model of the Python str.strip method: remove whitespace from both
ends. -/
def pyStrip (s : String) : String :=
  String.mk
    (((s.data.dropWhile Char.isWhitespace).reverse.dropWhile
      Char.isWhitespace).reverse)

/-- Model of the Python string less-than: lexicographic comparison by
code point. -/
def pyStrLtAux : List Char → List Char → Bool
  | [], [] => false
  | [], _ :: _ => true
  | _ :: _, [] => false
  | a :: as, b :: bs =>
    if a.toNat < b.toNat then true
    else if b.toNat < a.toNat then false
    else pyStrLtAux as bs

/-- Lexicographic code-point order on strings, as Python compares the
ISO timestamp strings. -/
def pyStrLt (s t : String) : Bool :=
  pyStrLtAux s.data t.data

/-- Registro models one attendance record as built by
RegistrarAsistencias.registrar (registrarAsistencia.py lines 92-99):
the stored dict has exactly the keys legajo, turno, tipo, fecha, hora,
timestamp. -/
structure Registro where
  legajo : String
  turno : String
  tipo : String
  fecha : String
  hora : String
  timestamp : String
deriving DecidableEq

/-- Result of the try/except around reading data/asistencias.json:
RegistrarAsistencias.cargar_asistencias (lines 38-58) returns the parsed
list on success and the empty list on every handled error. -/
def cargar_asistencias : Except String (List Registro) → List Registro
  | Except.ok asistencias => asistencias
  | Except.error _ => []

/-- Model of registros_empleado.sort(key=timestamp, reverse=True) followed
by taking element 0 (lines 143-144): the stable descending sort puts first
the earliest-indexed record among those with the maximal timestamp, so a
left fold that replaces the best only on a strictly larger timestamp
computes exactly that record. -/
def ultimo_registro (registros : List Registro) : Option Registro :=
  registros.foldl
    (fun mejor r =>
      match mejor with
      | none => some r
      | some m => if pyStrLt m.timestamp r.timestamp then some r else some m)
    none

/-- RegistrarAsistencias.obtener_ultimo_tipo (lines 119-151): filter the
ledger by legajo; with no records return "salida" (line 140); otherwise
return the opposite of the most recent record's tipo (lines 143-147).
The except handler (line 151) returns "entrada", but the only fallible
operation, the file read, is already absorbed by cargar_asistencias. -/
def obtener_ultimo_tipo (raw : Except String (List Registro)) (legajo : String) : String :=
  let asistencias := cargar_asistencias raw
  let registros_empleado := asistencias.filter (fun r => r.legajo == legajo)
  match ultimo_registro registros_empleado with
  | none => "salida"
  | some r => if r.tipo == "salida" then "entrada" else "salida"

/-- RegistrarAsistencias.puede_registrar_hoy (lines 153-182): true iff no
record with this legajo, today's fecha and this tipo exists.  A failed
read yields the empty ledger, hence true; the outer except handler
(line 182) likewise returns True. -/
def puede_registrar_hoy (raw : Except String (List Registro))
    (legajo tipo_registro hoy : String) : Bool :=
  let asistencias := cargar_asistencias raw
  let registros_hoy := asistencias.filter
    (fun r => r.legajo == legajo && r.fecha == hoy && r.tipo == pyLower tipo_registro)
  registros_hoy.length == 0

/-- Shift-window table of RegistrarAsistencias.calcular_puntualidad
(lines 200-213), in seconds since midnight. -/
def horarios_puntualidad (turno tipo : String) : Option (Nat × Nat) :=
  match turno, tipo with
  | "mañana", "entrada" => some (19800, 23400)
  | "mañana", "salida" => some (48600, 52200)
  | "tarde", "entrada" => some (48600, 52200)
  | "tarde", "salida" => some (77400, 81000)
  | "noche", "entrada" => some (77400, 81000)
  | "noche", "salida" => some (19800, 23400)
  | _, _ => none

/-- RegistrarAsistencias.calcular_puntualidad (lines 184-238).  The only
fallible step inside the try block is parsing the timestamp, so the
function receives the parse result; the except handler (line 238)
returns "puntual".  Unknown turno or tipo fall off the table and give
"fuera de turno" (lines 218-222). -/
def calcular_puntualidad (hora_registro : Except String Nat)
    (tipo_registro turno : String) : String :=
  match hora_registro with
  | Except.error _ => "puntual"
  | Except.ok hora =>
    match horarios_puntualidad (pyLower turno) (pyLower tipo_registro) with
    | none => "fuera de turno"
    | some (inicio, fin) =>
      if inicio ≤ hora ∧ hora ≤ fin then "puntual"
      else if hora < inicio then "temprano"
      else "tardío"

/-- Ahora bundles the pieces of datetime.now() that the /reconocer
handler uses: the formatted date, time and timestamp strings plus the
time of day in seconds (the strftime round trip through
datetime.fromisoformat always succeeds, so calcular_puntualidad sees the
parsed time). -/
structure Ahora where
  fecha : String
  hora : String
  timestamp : String
  hora_num : Nat
deriving DecidableEq

/-- Record appended by RegistrarAsistencias.registrar (lines 92-99). -/
def nuevo_registro (legajo turno tipo_registro : String) (ahora : Ahora) : Registro :=
  ⟨legajo, pyLower turno, pyLower tipo_registro, ahora.fecha, ahora.hora,
    ahora.timestamp⟩

/-- Outcome of the /reconocer handler together with the resulting ledger
contents (the asistencias file after the request). -/
structure ResultadoReconocer where
  exito : Bool
  mensaje : String
  asistencias : List Registro
deriving DecidableEq

/-- The /reconocer handler of app.py (lines 179-199) on the JSON path
(DATABASE_MANAGER_DISPONIBLE false), after image decoding: coincide is
the coincide field of reconocer_empleado's result; then the expected
kind, the daily duplicate guard, the punctuality gate and the append of
registrar (lines 190-199). -/
def reconocer (coincide : Bool) (raw : Except String (List Registro))
    (legajo turno : String) (ahora : Ahora) : ResultadoReconocer :=
  if !coincide then
    ⟨false, "Empleado no reconocido", cargar_asistencias raw⟩
  else
    let tipo := obtener_ultimo_tipo raw legajo
    if !puede_registrar_hoy raw legajo tipo ahora.fecha then
      ⟨false, "Ya se registró un " ++ pyLower tipo ++ " hoy", cargar_asistencias raw⟩
    else
      let estado := calcular_puntualidad (Except.ok ahora.hora_num) tipo turno
      if estado == "fuera de turno" then
        ⟨false, "Fuera de turno", cargar_asistencias raw⟩
      else
        ⟨true, tipo ++ " registrado correctamente",
          cargar_asistencias raw ++ [nuevo_registro legajo turno tipo ahora]⟩

/-- Shift table of ValidadorTurno.__init__ (validarTurno.py lines
19-32), in seconds since midnight: mañana 06:00-14:00, tarde
14:00-22:00, noche 22:00-06:00. -/
def horarios_turnos (turno : String) : Option (Nat × Nat) :=
  match turno with
  | "mañana" => some (21600, 50400)
  | "tarde" => some (50400, 79200)
  | "noche" => some (79200, 21600)
  | _ => none

/-- ValidadorTurno.esta_en_horario (lines 102-127): unknown turno is
false; the noche window wraps midnight and holds iff the time is at or
after the start or at or before the end; other windows are inclusive
intervals. -/
def esta_en_horario (turno : String) (hora_actual : Nat) : Bool :=
  match horarios_turnos turno with
  | none => false
  | some (inicio, fin) =>
    if turno == "noche" then
      decide (inicio ≤ hora_actual) || decide (hora_actual ≤ fin)
    else
      decide (inicio ≤ hora_actual) && decide (hora_actual ≤ fin)

/-- Empleado models one entry of the embeddings store
(data/embeddings.json) as read by ValidadorTurno and VerificadorFacial:
area, rol, turno strings and an optional embedding (the verificador
checks for the key's presence).  Embedding values are rationals; see the
file header for the squared-distance convention. -/
structure Empleado where
  area : String
  rol : String
  turno : String
  embedding : Option (List Rat)
deriving DecidableEq

/-- Lookup of a legajo in the store; JSON object keys are unique, so an
association list searched front to back models the dict. -/
def buscar_legajo (base : List (String × Empleado)) (legajo : String) : Option Empleado :=
  (base.find? (fun p => p.1 == legajo)).map (fun p => p.2)

/-- Result dictionary of ValidadorTurno.validar; keys that a branch does
not set are none. -/
structure ResultadoValidacion where
  valido : Bool
  mensaje : String
  turno_asignado : Option String
  en_horario : Option Bool
  advertencia : Option String
deriving DecidableEq

/-- ValidadorTurno.validar (lines 36-100): strip the legajo, lower-strip
the claimed turno; unknown legajo is invalid; an empty assigned turno is
invalid; a differing assigned turno is invalid with the assigned turno
echoed back (lines 88-93); an equal turno is valid, with an advisory
en_horario flag from esta_en_horario. -/
def validar (base : List (String × Empleado)) (legajo turno_solicitado : String)
    (ahora : Nat) : ResultadoValidacion :=
  let legajo_str := pyStrip legajo
  let solicitado := pyStrip (pyLower turno_solicitado)
  match buscar_legajo base legajo_str with
  | none => ⟨false, "El legajo " ++ legajo_str ++ " no existe", none, none, none⟩
  | some empleado =>
    let turno_asignado := pyStrip (pyLower empleado.turno)
    if turno_asignado == "" then
      ⟨false, "El empleado no tiene turno asignado", none, none, none⟩
    else if solicitado == turno_asignado then
      if esta_en_horario solicitado ahora then
        ⟨true, "Turno " ++ solicitado ++ " válido", some turno_asignado, some true, none⟩
      else
        ⟨true, "Turno " ++ solicitado ++ " válido pero fuera de horario",
          some turno_asignado, some false,
          some "Está fuera del horario normal del turno"⟩
    else
      ⟨false, "Turno incorrecto. Su turno asignado es: " ++ turno_asignado,
        some turno_asignado, none, none⟩

/-- Squared Euclidean distance between two equal-length vectors,
modelling np.linalg.norm(v1 - v2) squared. -/
def distSq (v1 v2 : List Rat) : Rat :=
  (List.zipWith (fun x y => (x - y) ^ 2) v1 v2).sum

/-- Employee data echoed in a successful comparison
(verificador.py lines 126-131). -/
structure EmpleadoInfo where
  legajo : String
  area : String
  rol : String
  turno : String
deriving DecidableEq

/-- Result dictionary of VerificadorFacial.comparar_con_empleado; the
distancia field holds the squared distance, with top standing for
float('inf'). -/
structure ResultadoComparacion where
  coincide : Bool
  distancia : WithTop Rat
  mensaje : String
  empleado : Option EmpleadoInfo
deriving DecidableEq

/-- VerificadorFacial.comparar_con_empleado (verificador.py lines
82-140): unknown legajo or missing embedding give coincide false with
infinite distance; otherwise coincide is distancia less-equal umbral,
rendered on squares (the 0 less-equal umbral conjunct makes a negative
threshold reject, as the real comparison does).  The catch-all except
handler (lines 134-140) also returns coincide false with infinite
distance, so the function is total with that shape on every non-numeric
path. -/
def comparar_con_empleado (base : List (String × Empleado)) (umbral : Rat)
    (encoding : List Rat) (legajo : String) : ResultadoComparacion :=
  match buscar_legajo base legajo with
  | none =>
    ⟨false, ⊤, "Empleado " ++ legajo ++ " no encontrado en la base de datos", none⟩
  | some empleado =>
    match empleado.embedding with
    | none =>
      ⟨false, ⊤, "Empleado " ++ legajo ++ " no tiene embedding registrado", none⟩
    | some embedding_empleado =>
      let d := distSq encoding embedding_empleado
      let coincide := decide (0 ≤ umbral) && decide (d ≤ umbral ^ 2)
      ⟨coincide,
        WithTop.some d,
        (if coincide then "Coincidencia" else "No coincidencia")
          ++ " para empleado " ++ legajo,
        some ⟨legajo, empleado.area, empleado.rol, empleado.turno⟩⟩

/-- EmbeddingManager.comparar_embeddings (embedding.py lines 34-38):
returns distancia strictly less than threshold, rendered on squares
(for threshold less-equal 0 both sides are false since distances are
nonnegative). -/
def comparar_embeddings (emb1 emb2 : List Rat) (threshold : Rat) : Bool :=
  decide (0 ≤ threshold) && decide (distSq emb1 emb2 < threshold ^ 2)

/-- Candidates visited by the loop of buscar_empleado_similar: the store
entries that have an embedding, as legajo paired with squared distance
to the probe, in store iteration order. -/
def candidatos (base : List (String × Empleado)) (probe : List Rat) :
    List (String × Rat) :=
  base.filterMap (fun p => p.2.embedding.map (fun e => (p.1, distSq probe e)))

/-- Update step of the loop of buscar_empleado_similar (verificador.py
lines 219-225): the running best is replaced only when the new distance
is strictly smaller, so the first candidate in iteration order wins
ties. -/
def paso_mejor (mejor : Option (String × Rat)) (c : String × Rat) :
    Option (String × Rat) :=
  match mejor with
  | none => some c
  | some m => if c.2 < m.2 then some c else mejor

/-- Loop of VerificadorFacial.buscar_empleado_similar (lines 209-225):
mejor_coincidencia starts as None with menor_distancia infinite and is
updated by paso_mejor on every store entry that has an embedding. -/
def mejor_coincidencia (base : List (String × Empleado)) (probe : List Rat) :
    Option (String × Rat) :=
  base.foldl
    (fun mejor p =>
      match p.2.embedding with
      | none => mejor
      | some e => paso_mejor mejor (p.1, distSq probe e))
    none

/-- Recursive form of the first-minimum of a list of candidates, used to
specify the loop: it returns the leftmost pair whose distance is
minimal. -/
def primer_minimo : List (String × Rat) → Option (String × Rat)
  | [] => none
  | c :: l =>
    match primer_minimo l with
    | none => some c
    | some m => if m.2 < c.2 then some m else some c

/-- Result of buscar_empleado_similar: either the matched legajo with
its (squared) distance, or not found carrying the minimal (squared)
distance observed, None when no candidate had an embedding. -/
inductive ResultadoBusqueda where
  | encontrado (legajo : String) (distancia : Rat)
  | noEncontrado (distancia_minima : Option Rat)
deriving DecidableEq

/-- VerificadorFacial.buscar_empleado_similar (lines 185-252) after face
detection: run the loop; report encontrado iff a best candidate exists
and its distance is at most the threshold (lines 227-245). -/
def buscar_empleado_similar (base : List (String × Empleado)) (probe : List Rat)
    (umbral : Rat) : ResultadoBusqueda :=
  match mejor_coincidencia base probe with
  | none => ResultadoBusqueda.noEncontrado none
  | some m =>
    if decide (0 ≤ umbral) && decide (m.2 ≤ umbral ^ 2) then
      ResultadoBusqueda.encontrado m.1 m.2
    else
      ResultadoBusqueda.noEncontrado (some m.2)

/-- PyFloat models a Python float as stored in an embedding list where
only finiteness matters (the /registrar_empleado handler never inspects
the values). -/
inductive PyFloat where
  | finito (q : Rat)
  | nan
  | infPos
  | infNeg
deriving DecidableEq

/-- Finiteness of a PyFloat. -/
def PyFloat.esFinito : PyFloat → Bool
  | PyFloat.finito _ => true
  | _ => false

/-- Store entry written by the /registrar_empleado handler
(app.py lines 250-255). -/
structure EmpleadoReg where
  area : String
  rol : String
  turno : String
  embedding : List PyFloat
deriving DecidableEq

/-- Outcome of /registrar_empleado together with the resulting store. -/
structure ResultadoRegistrar where
  exito : Bool
  mensaje : String
  base : List (String × EmpleadoReg)
deriving DecidableEq

/-- The /registrar_empleado handler of app.py (lines 235-262) on the
JSON path, from the embedding check on (the inputs are already stripped
and nonempty, and generar_embedding returned a list, so the isinstance
guard holds): reject when the embedding has fewer than 128 entries
(line 235), then reject a duplicate legajo, else store the entry. -/
def registrar_empleado (base : List (String × EmpleadoReg))
    (legajo area rol turno : String) (embedding : List PyFloat) : ResultadoRegistrar :=
  if embedding.length < 128 then
    ⟨false, "Embedding inválido", base⟩
  else if (base.find? (fun p => p.1 == legajo)).isSome then
    ⟨false, "Legajo ya registrado", base⟩
  else
    ⟨true, "Empleado registrado correctamente",
      base ++ [(legajo, ⟨area, rol, turno, embedding⟩)]⟩

/-!
Theorems. Each claim of the specification is settled by one named
theorem below; helper lemmas carry the list inductions for the search
loop.
-/

/-- C1: the specification states that the next-expected-kind operation
on an employee with zero recorded events returns entrada (check-in), and
the docstring and inline comment of obtener_ultimo_tipo say the same;
the code however returns "salida" for an empty history.  This theorem
evaluates the code at the failing input. -/
theorem obtener_ultimo_tipo_zero_history_returns_salida :
    obtener_ultimo_tipo (Except.ok []) "E1" = "salida" := rfl

/-- C9: the duplicate-event guard and the punctuality classifier fail
open.  A failed read of the attendance file leaves puede_registrar_hoy
with an empty history, so it returns true and registration is permitted;
calcular_puntualidad returns "puntual" whenever its timestamp parse
fails. -/
theorem guards_fail_open_on_internal_error :
    (∀ e legajo tipo hoy,
      puede_registrar_hoy (Except.error e) legajo tipo hoy = true) ∧
    (∀ e tipo turno,
      calcular_puntualidad (Except.error e) tipo turno = "puntual") :=
  ⟨fun _ _ _ _ => rfl, fun _ _ _ => rfl⟩

/-- Witness for C9 at concrete inputs. -/
theorem guards_fail_open_on_internal_error_witness :
    puede_registrar_hoy (Except.error "fallo") "E1" "entrada" "2024-01-15" = true ∧
    calcular_puntualidad (Except.error "fallo") "entrada" "mañana" = "puntual" :=
  ⟨guards_fail_open_on_internal_error.1 "fallo" "E1" "entrada" "2024-01-15",
    guards_fail_open_on_internal_error.2 "fallo" "entrada" "mañana"⟩

/-- C5: the noche window (start 22:00, end 06:00) wraps midnight and
esta_en_horario holds exactly when the time is at or after 22:00 or at
or before 06:00, so 23:00 and 03:00 are in the window and 12:00 is not;
the non-wraparound windows mañana and tarde hold exactly on the
inclusive interval from start to end. -/
theorem esta_en_horario_wraparound_and_normal_windows :
    (∀ t : Nat, esta_en_horario "noche" t = true ↔ (79200 ≤ t ∨ t ≤ 21600)) ∧
    esta_en_horario "noche" 82800 = true ∧
    esta_en_horario "noche" 10800 = true ∧
    esta_en_horario "noche" 43200 = false ∧
    (∀ t : Nat, esta_en_horario "mañana" t = true ↔ (21600 ≤ t ∧ t ≤ 50400)) ∧
    (∀ t : Nat, esta_en_horario "tarde" t = true ↔ (50400 ≤ t ∧ t ≤ 79200)) := by
  refine ⟨fun t => ?_, by decide, by decide, by decide, fun t => ?_, fun t => ?_⟩ <;>
    simp [esta_en_horario, horarios_turnos]

/-- Witness for C5: the wraparound part applied at 23:00. -/
theorem esta_en_horario_wraparound_witness :
    esta_en_horario "noche" 82800 = true :=
  (esta_en_horario_wraparound_and_normal_windows.1 82800).mpr (Or.inl (by decide))

/-- C6 counterexample: the claim, read over comparar_embeddings (one of
its two cited implementations), is false: a pair of embeddings at
exactly the threshold distance (distance three fifths, squared distance
nine twenty-fifths) is rejected, because comparar_embeddings compares
with strict less-than. -/
theorem comparar_embeddings_rejects_at_threshold :
    distSq [(3 : Rat) / 5] [0] = ((3 : Rat) / 5) ^ 2 ∧
    comparar_embeddings [(3 : Rat) / 5] [0] ((3 : Rat) / 5) = false := by
  constructor
  · norm_num [distSq]
  · norm_num [comparar_embeddings, distSq]

/-- C6 (amended): comparar_con_empleado, the comparison used by the
recognition pipeline, accepts a probe at exactly the threshold distance:
its decision is less-equal, stated here on squared distances with a
nonnegative threshold. -/
theorem comparar_con_empleado_accepts_at_threshold
    (base : List (String × Empleado)) (umbral : Rat) (probe ref : List Rat)
    (legajo : String) (empleado : Empleado)
    (hfind : buscar_legajo base legajo = some empleado)
    (hemb : empleado.embedding = some ref)
    (hlen : probe.length = ref.length)
    (hpos : 0 ≤ umbral)
    (hdist : distSq probe ref = umbral ^ 2) :
    (comparar_con_empleado base umbral probe legajo).coincide = true := by
  simp [comparar_con_empleado, hfind, hemb, hdist, hpos]

/-- Witness for C6 at a concrete store, probe and threshold. -/
theorem comparar_con_empleado_accepts_at_threshold_witness :
    (comparar_con_empleado [("E1", ⟨"a", "r", "mañana", some [0]⟩)]
      ((3 : Rat) / 5) [(3 : Rat) / 5] "E1").coincide = true :=
  comparar_con_empleado_accepts_at_threshold _ _ _ _ _ _ rfl rfl rfl
    (by norm_num) (by norm_num [distSq])

/-- C10: comparar_con_empleado is total at its interface: an unknown
legajo, and a known legajo without a stored embedding, both yield the
structured non-match result with coincide false and infinite distance
(and the catch-all except handler of the source returns the same shape,
so nothing is raised to the caller). -/
theorem comparar_con_empleado_total_unknown_or_missing
    (base : List (String × Empleado)) (umbral : Rat) (probe : List Rat)
    (legajo : String) :
    (buscar_legajo base legajo = none →
      comparar_con_empleado base umbral probe legajo =
        ⟨false, ⊤, "Empleado " ++ legajo ++ " no encontrado en la base de datos",
          none⟩) ∧
    (∀ empleado, buscar_legajo base legajo = some empleado →
      empleado.embedding = none →
      comparar_con_empleado base umbral probe legajo =
        ⟨false, ⊤, "Empleado " ++ legajo ++ " no tiene embedding registrado",
          none⟩) := by
  constructor
  · intro h
    simp [comparar_con_empleado, h]
  · intro empleado h1 h2
    simp [comparar_con_empleado, h1, h2]

/-- Witness for C10: an empty store and a store whose only entry lacks an
embedding. -/
theorem comparar_con_empleado_total_unknown_or_missing_witness :
    comparar_con_empleado [] 1 [0] "E9" =
      ⟨false, ⊤, "Empleado E9 no encontrado en la base de datos", none⟩ ∧
    comparar_con_empleado [("E8", ⟨"a", "r", "t", none⟩)] 1 [0] "E8" =
      ⟨false, ⊤, "Empleado E8 no tiene embedding registrado", none⟩ :=
  ⟨(comparar_con_empleado_total_unknown_or_missing [] 1 [0] "E9").1 rfl,
    (comparar_con_empleado_total_unknown_or_missing
      [("E8", ⟨"a", "r", "t", none⟩)] 1 [0] "E8").2 _ rfl rfl⟩

/-- C3 counterexample: an embedding of exactly 128 entries all of which
are NaN is accepted by registrar_empleado and stored, contradicting the
claim that an embedding containing a non-finite value is rejected and
never enters the store. -/
theorem registrar_empleado_accepts_nan_embedding :
    (List.replicate 128 PyFloat.nan).length = 128 ∧
    (List.replicate 128 PyFloat.nan).all (fun v => !v.esFinito) = true ∧
    (registrar_empleado [] "E2" "a" "r" "mañana"
      (List.replicate 128 PyFloat.nan)).exito = true ∧
    (registrar_empleado [] "E2" "a" "r" "mañana"
      (List.replicate 128 PyFloat.nan)).base =
      [("E2", ⟨"a", "r", "mañana", List.replicate 128 PyFloat.nan⟩)] := by
  refine ⟨by decide, by decide, by decide, by decide⟩

/-- C3 (amended): the embedding check of the /registrar_empleado handler
rejects with the Embedding inválido message exactly when the embedding
has fewer than 128 entries, in which case nothing is stored; embeddings
of length at least 128 pass the check regardless of their values (so
length 127 is rejected, while over-long or non-finite embeddings are
not). -/
theorem registrar_empleado_rejects_iff_length_below_128
    (base : List (String × EmpleadoReg)) (legajo area rol turno : String)
    (embedding : List PyFloat) :
    ((registrar_empleado base legajo area rol turno embedding).mensaje =
        "Embedding inválido" ↔ embedding.length < 128) ∧
    (embedding.length < 128 →
      (registrar_empleado base legajo area rol turno embedding).exito = false ∧
      (registrar_empleado base legajo area rol turno embedding).base = base) := by
  unfold registrar_empleado
  split_ifs with h1 h2
  · exact ⟨by simp [h1], fun _ => ⟨rfl, rfl⟩⟩
  · refine ⟨⟨fun hm => ?_, fun hl => absurd hl h1⟩, fun hl => absurd hl h1⟩
    simp at hm
  · refine ⟨⟨fun hm => ?_, fun hl => absurd hl h1⟩, fun hl => absurd hl h1⟩
    simp at hm

/-- Witness for C3: an embedding of length 127 is rejected and the store
is unchanged. -/
theorem registrar_empleado_rejects_iff_length_below_128_witness :
    (registrar_empleado [] "E2" "a" "r" "mañana"
      (List.replicate 127 (PyFloat.finito 0))).exito = false ∧
    (registrar_empleado [] "E2" "a" "r" "mañana"
      (List.replicate 127 (PyFloat.finito 0))).base = [] :=
  (registrar_empleado_rejects_iff_length_below_128 [] "E2" "a" "r" "mañana"
    (List.replicate 127 (PyFloat.finito 0))).2 (by simp)

/-- C2 counterexample: after a successful check-in today (one entrada
record for E1 on 2024-01-15), a second recognition attempt for E1 the
same day is not rejected: the expected kind has become salida, no salida
exists today, so the attempt succeeds and appends a salida record. -/
theorem reconocer_second_attempt_after_checkin_not_rejected :
    (reconocer true
      (Except.ok [⟨"E1", "mañana", "entrada", "2024-01-15", "06:00:00",
        "2024-01-15T06:00:00"⟩])
      "E1" "mañana"
      ⟨"2024-01-15", "13:45:00", "2024-01-15T13:45:00", 49500⟩).exito = true ∧
    (reconocer true
      (Except.ok [⟨"E1", "mañana", "entrada", "2024-01-15", "06:00:00",
        "2024-01-15T06:00:00"⟩])
      "E1" "mañana"
      ⟨"2024-01-15", "13:45:00", "2024-01-15T13:45:00", 49500⟩).asistencias =
      [⟨"E1", "mañana", "entrada", "2024-01-15", "06:00:00",
        "2024-01-15T06:00:00"⟩,
       ⟨"E1", "mañana", "salida", "2024-01-15", "13:45:00",
        "2024-01-15T13:45:00"⟩] := by
  exact ⟨by decide, by decide⟩

/-- C2 (amended): when the face matches, the recognition handler rejects
with the already-registered-today message and appends nothing exactly
when an event of the newly expected kind (the opposite of the most
recent event) already exists for the employee on the current date; after
a successful check-in the expected kind is check-out, so a second
same-day attempt is not rejected by this guard. -/
theorem reconocer_rejects_when_expected_kind_already_today
    (raw : Except String (List Registro)) (legajo turno : String) (ahora : Ahora)
    (h : puede_registrar_hoy raw legajo (obtener_ultimo_tipo raw legajo)
      ahora.fecha = false) :
    reconocer true raw legajo turno ahora =
      ⟨false,
        "Ya se registró un " ++ pyLower (obtener_ultimo_tipo raw legajo) ++ " hoy",
        cargar_asistencias raw⟩ := by
  simp [reconocer, h]

/-- Witness for C2: a ledger whose most recent event is a salida, with an
entrada already recorded today, makes the next attempt expect an entrada
and be rejected without appending. -/
theorem reconocer_rejects_when_expected_kind_already_today_witness :
    reconocer true
      (Except.ok [⟨"E1", "mañana", "entrada", "2024-01-15", "06:00:00",
        "2024-01-15T06:00:00"⟩,
        ⟨"E1", "mañana", "salida", "2024-01-15", "14:00:00",
        "2024-01-15T14:00:00"⟩])
      "E1" "mañana"
      ⟨"2024-01-15", "15:00:00", "2024-01-15T15:00:00", 54000⟩ =
      ⟨false, "Ya se registró un entrada hoy",
        [⟨"E1", "mañana", "entrada", "2024-01-15", "06:00:00",
          "2024-01-15T06:00:00"⟩,
         ⟨"E1", "mañana", "salida", "2024-01-15", "14:00:00",
          "2024-01-15T14:00:00"⟩]⟩ :=
  reconocer_rejects_when_expected_kind_already_today _ _ _ _ (by decide)

/-- C4 counterexample: a recognition attempt classified tardío is still
accepted, and the appended record carries no classification: the stored
record consists only of legajo, turno, tipo, fecha, hora and timestamp,
none of which holds the value tardío, contradicting the claim that the
classification is recorded alongside the event. -/
theorem reconocer_late_event_classification_not_stored :
    calcular_puntualidad (Except.ok 54000) "salida" "mañana" = "tardío" ∧
    (reconocer true (Except.ok []) "E1" "mañana"
      ⟨"2024-01-15", "15:00:00", "2024-01-15T15:00:00", 54000⟩).exito = true ∧
    (reconocer true (Except.ok []) "E1" "mañana"
      ⟨"2024-01-15", "15:00:00", "2024-01-15T15:00:00", 54000⟩).asistencias =
      [⟨"E1", "mañana", "salida", "2024-01-15", "15:00:00",
        "2024-01-15T15:00:00"⟩] ∧
    (reconocer true (Except.ok []) "E1" "mañana"
      ⟨"2024-01-15", "15:00:00", "2024-01-15T15:00:00", 54000⟩).asistencias.all
      (fun r => r.legajo != "tardío" && r.turno != "tardío" &&
        r.tipo != "tardío" && r.fecha != "tardío" && r.hora != "tardío" &&
        r.timestamp != "tardío") = true := by
  exact ⟨by decide, by decide, by decide, by decide⟩

/-- C4 (amended): once the identity and duplicate-event checks pass, a
timing classification other than fuera de turno (so in particular tardío
and temprano) never causes rejection: the event is appended; the
classification itself is only consulted for the fuera de turno gate and
is not stored with the record. -/
theorem reconocer_late_early_still_appends
    (raw : Except String (List Registro)) (legajo turno : String) (ahora : Ahora)
    (hpuede : puede_registrar_hoy raw legajo (obtener_ultimo_tipo raw legajo)
      ahora.fecha = true)
    (hestado : calcular_puntualidad (Except.ok ahora.hora_num)
      (obtener_ultimo_tipo raw legajo) turno ≠ "fuera de turno") :
    reconocer true raw legajo turno ahora =
      ⟨true, obtener_ultimo_tipo raw legajo ++ " registrado correctamente",
        cargar_asistencias raw ++
          [nuevo_registro legajo turno (obtener_ultimo_tipo raw legajo) ahora]⟩ := by
  simp [reconocer, hpuede, hestado]

/-- Witness for C4: a tardío attempt (15:00 against the mañana salida
window ending 14:30) is accepted and appended. -/
theorem reconocer_late_early_still_appends_witness :
    reconocer true (Except.ok []) "E1" "mañana"
      ⟨"2024-01-15", "15:00:00", "2024-01-15T15:00:00", 54000⟩ =
      ⟨true, "salida registrado correctamente",
        [⟨"E1", "mañana", "salida", "2024-01-15", "15:00:00",
          "2024-01-15T15:00:00"⟩]⟩ :=
  reconocer_late_early_still_appends _ _ _ _ (by decide) (by decide)

/-- C7: for a known employee whose assigned turno (lower-cased and
trimmed) is nonempty and differs from the claimed turno (lower-cased and
trimmed), validar returns invalid with the mismatch message and echoes
the assigned turno; when the two agree it returns valid (so no
mismatch); for an unknown legajo it returns invalid. -/
theorem validar_shift_mismatch_reports_assigned
    (base : List (String × Empleado)) (legajo turno_solicitado : String)
    (ahora : Nat) :
    (∀ empleado, buscar_legajo base (pyStrip legajo) = some empleado →
      pyStrip (pyLower empleado.turno) ≠ "" →
      pyStrip (pyLower turno_solicitado) ≠ pyStrip (pyLower empleado.turno) →
      validar base legajo turno_solicitado ahora =
        ⟨false,
          "Turno incorrecto. Su turno asignado es: "
            ++ pyStrip (pyLower empleado.turno),
          some (pyStrip (pyLower empleado.turno)), none, none⟩) ∧
    (∀ empleado, buscar_legajo base (pyStrip legajo) = some empleado →
      pyStrip (pyLower empleado.turno) ≠ "" →
      pyStrip (pyLower turno_solicitado) = pyStrip (pyLower empleado.turno) →
      (validar base legajo turno_solicitado ahora).valido = true) ∧
    (buscar_legajo base (pyStrip legajo) = none →
      (validar base legajo turno_solicitado ahora).valido = false) := by
  refine ⟨?_, ?_, ?_⟩
  · intro empleado h1 h2 h3
    simp [validar, h1, h2, h3]
  · intro empleado h1 h2 h3
    cases h4 : esta_en_horario (pyStrip (pyLower empleado.turno)) ahora <;>
      simp [validar, h1, h2, h3, h4]
  · intro h
    simp [validar, h]

/-- Witness for C7: employee E1 with assigned turno mañana, claimed turno
tarde. -/
theorem validar_shift_mismatch_reports_assigned_witness :
    validar [("E1", ⟨"a", "r", "mañana", none⟩)] "E1" "tarde" 0 =
      ⟨false, "Turno incorrecto. Su turno asignado es: mañana",
        some "mañana", none, none⟩ :=
  (validar_shift_mismatch_reports_assigned
    [("E1", ⟨"a", "r", "mañana", none⟩)] "E1" "tarde" 0).1
    ⟨"a", "r", "mañana", none⟩ (by decide) (by decide) (by decide)

/-- Helper for C8: the loop over store entries equals the fold of
paso_mejor over the candidate list (entries with an embedding, paired
with their squared distance). -/
theorem foldl_embedding_step (probe : List Rat) :
    ∀ (base : List (String × Empleado)) (acc : Option (String × Rat)),
      base.foldl
        (fun mejor p =>
          match p.2.embedding with
          | none => mejor
          | some e => paso_mejor mejor (p.1, distSq probe e)) acc =
      (candidatos base probe).foldl paso_mejor acc := by
  intro base
  induction base with
  | nil => intro acc; rfl
  | cons p rest ih =>
    intro acc
    cases h : p.2.embedding with
    | none => simp [candidatos, List.filterMap_cons, h, ih, List.foldl_cons]
    | some e => simp [candidatos, List.filterMap_cons, h, ih, List.foldl_cons]

/-- Helper for C8: primer_minimo is none exactly on the empty list. -/
theorem primer_minimo_eq_none (l : List (String × Rat)) :
    primer_minimo l = none ↔ l = [] := by
  cases l with
  | nil => simp [primer_minimo]
  | cons c t =>
    constructor
    · intro h
      exfalso
      simp only [primer_minimo] at h
      cases h2 : primer_minimo t with
      | none => rw [h2] at h; exact Option.noConfusion h
      | some m =>
        rw [h2] at h
        have h' : (if m.2 < c.2 then some m else some c) = none := h
        by_cases hm : m.2 < c.2
        · rw [if_pos hm] at h'; exact Option.noConfusion h'
        · rw [if_neg hm] at h'; exact Option.noConfusion h'
    · intro h
      exact absurd h (List.cons_ne_nil c t)

/-- Helper for C8: folding paso_mejor from a nonempty accumulator is the
first minimum of the list compared against the accumulator, with the
accumulator winning ties. -/
theorem foldl_paso_acc :
    ∀ (l : List (String × Rat)) (a : String × Rat),
      l.foldl paso_mejor (some a) =
        (match primer_minimo l with
          | none => some a
          | some m => if m.2 < a.2 then some m else some a) := by
  intro l
  induction l with
  | nil => intro a; rfl
  | cons c t ih =>
    intro a
    simp only [List.foldl_cons]
    by_cases hc : c.2 < a.2
    · rw [show paso_mejor (some a) c = some c from by simp [paso_mejor, hc]]
      rw [ih c]
      simp only [primer_minimo]
      cases h2 : primer_minimo t with
      | none => simp [hc]
      | some m =>
        by_cases hm : m.2 < c.2
        · simp [hm, lt_trans hm hc]
        · simp [hm, hc]
    · rw [show paso_mejor (some a) c = some a from by simp [paso_mejor, hc]]
      rw [ih a]
      simp only [primer_minimo]
      cases h2 : primer_minimo t with
      | none => simp [hc]
      | some m =>
        by_cases hm : m.2 < c.2
        · simp [hm]
        · have h1 : ¬ m.2 < a.2 :=
            not_lt.mpr (le_trans (le_of_not_lt hc) (le_of_not_lt hm))
          simp [hm, hc, h1]

/-- Helper for C8: folding paso_mejor from none computes primer_minimo. -/
theorem foldl_paso_none (l : List (String × Rat)) :
    l.foldl paso_mejor none = primer_minimo l := by
  cases l with
  | nil => rfl
  | cons c t =>
    simp only [List.foldl_cons]
    rw [show paso_mejor none c = some c from rfl, foldl_paso_acc]
    simp only [primer_minimo]

/-- Helper for C8: primer_minimo returns the leftmost pair of minimal
second component: everything before it is strictly larger, everything
after it is at least as large. -/
theorem primer_minimo_spec :
    ∀ (l : List (String × Rat)) (c : String × Rat),
      primer_minimo l = some c →
      ∃ pre post, l = pre ++ c :: post ∧
        (∀ p ∈ pre, c.2 < p.2) ∧ (∀ p ∈ post, c.2 ≤ p.2) := by
  intro l
  induction l with
  | nil => intro c h; simp [primer_minimo] at h
  | cons a t ih =>
    intro c h
    simp only [primer_minimo] at h
    cases h2 : primer_minimo t with
    | none =>
      rw [h2] at h
      have hac : a = c := by simpa using h
      subst hac
      have ht : t = [] := (primer_minimo_eq_none t).mp h2
      subst ht
      exact ⟨[], [], by simp, by simp, by simp⟩
    | some m =>
      rw [h2] at h
      have h' : (if m.2 < a.2 then some m else some a) = some c := h
      by_cases hm : m.2 < a.2
      · rw [if_pos hm] at h'
        have hmc : m = c := by simpa using h'
        subst hmc
        obtain ⟨pre, post, heq, hpre, hpost⟩ := ih m h2
        refine ⟨a :: pre, post, by simp [heq], ?_, hpost⟩
        intro p hp
        rcases List.mem_cons.mp hp with rfl | hp
        · exact hm
        · exact hpre p hp
      · rw [if_neg hm] at h'
        have hac : a = c := by simpa using h'
        subst hac
        obtain ⟨pre, post, heq, hpre, hpost⟩ := ih m h2
        refine ⟨[], t, by simp, by simp, ?_⟩
        intro p hp
        have ham : a.2 ≤ m.2 := le_of_not_lt hm
        rw [heq] at hp
        rcases List.mem_append.mp hp with hp | hp
        · exact le_of_lt (lt_of_le_of_lt ham (hpre p hp))
        · rcases List.mem_cons.mp hp with rfl | hp
          · exact ham
          · exact le_trans ham (hpost p hp)

/-- C8: on a candidate map with at least one embedded candidate, the
search loop selects the candidate of minimal distance to the probe,
breaking ties in favour of the first candidate in iteration order
(everything before the winner is strictly farther, everything after at
least as far), and when no candidate is within the threshold the result
is not-found carrying that minimal distance. -/
theorem buscar_empleado_similar_selects_first_min
    (base : List (String × Empleado)) (probe : List Rat) (umbral : Rat)
    (h : candidatos base probe ≠ []) :
    ∃ l d pre post,
      mejor_coincidencia base probe = some (l, d) ∧
      candidatos base probe = pre ++ (l, d) :: post ∧
      (∀ p ∈ pre, d < p.2) ∧
      (∀ p ∈ post, d ≤ p.2) ∧
      ((∀ p ∈ candidatos base probe, ¬ (0 ≤ umbral ∧ p.2 ≤ umbral ^ 2)) →
        buscar_empleado_similar base probe umbral =
          ResultadoBusqueda.noEncontrado (some d)) := by
  have hme : mejor_coincidencia base probe =
      (candidatos base probe).foldl paso_mejor none :=
    foldl_embedding_step probe base none
  rw [foldl_paso_none] at hme
  cases hpm : primer_minimo (candidatos base probe) with
  | none => exact absurd ((primer_minimo_eq_none _).mp hpm) h
  | some c =>
    obtain ⟨pre, post, heq, hpre, hpost⟩ := primer_minimo_spec _ c hpm
    refine ⟨c.1, c.2, pre, post, by simp [hme, hpm], by simpa using heq,
      hpre, hpost, ?_⟩
    intro hno
    have hcmem : c ∈ candidatos base probe := by
      rw [heq]
      exact List.mem_append.mpr (Or.inr (List.mem_cons_self _ _))
    have hnc : ¬ (0 ≤ umbral ∧ c.2 ≤ umbral ^ 2) := hno c hcmem
    simp only [buscar_empleado_similar, hme, hpm]
    simp [hnc]

/-- Witness for C8: probe at 5 against embeddings 0 and 1 with squared
distances 25 and 16 and threshold 1.  The claim theorem applied at this
store yields the minimum 16 on candidate B and the not-found result. -/
theorem buscar_empleado_similar_selects_first_min_witness :
    ∃ l d pre post,
      mejor_coincidencia
        [("A", ⟨"a", "r", "m", some [0]⟩), ("B", ⟨"b", "s", "n", some [1]⟩)]
        [5] = some (l, d) ∧
      candidatos
        [("A", ⟨"a", "r", "m", some [0]⟩), ("B", ⟨"b", "s", "n", some [1]⟩)]
        [5] = pre ++ (l, d) :: post ∧
      (∀ p ∈ pre, d < p.2) ∧
      (∀ p ∈ post, d ≤ p.2) ∧
      ((∀ p ∈ candidatos
          [("A", ⟨"a", "r", "m", some [0]⟩), ("B", ⟨"b", "s", "n", some [1]⟩)]
          [5], ¬ (0 ≤ (1 : Rat) ∧ p.2 ≤ (1 : Rat) ^ 2)) →
        buscar_empleado_similar
          [("A", ⟨"a", "r", "m", some [0]⟩), ("B", ⟨"b", "s", "n", some [1]⟩)]
          [5] 1 =
          ResultadoBusqueda.noEncontrado (some d)) :=
  buscar_empleado_similar_selects_first_min _ _ 1 (by decide)
